import Mathlib

/-!
Shallow embedding of the "Caixa de Senhas" application (src/app.py and
src/database.py): the SQLite tables become Lean structures, each database
method and each route handler becomes a total Lean function over an explicit
store state, and the JSON serialization of the password list is modelled by
an executable encoder and decoder specialised to JSON lists of strings.
Timestamps are natural numbers; externally raised storage failures that the
code catches are modelled by explicit parameters where a claim depends on
them (the last-login UPDATE in validar_login).
-/

/-- The ASCII whitespace characters stripped by Python's str.strip(). -/
def isPyWS (c : Char) : Bool :=
  c = ' ' || c = '\t' || c = '\n' || c = '\x0d' || c = '\x0b' || c = '\x0c'

/-- Python str.strip(): remove leading and trailing whitespace. -/
def pyStrip (s : String) : String :=
  String.mk (((s.data.dropWhile isPyWS).reverse.dropWhile isPyWS).reverse)

/-- Python str.split(','): split on every comma; the empty string yields [""]. -/
def pySplitComma (s : String) : List String :=
  (s.data.foldr (fun c acc =>
    if c = ',' then [] :: acc
    else match acc with
      | h :: t => (c :: h) :: t
      | [] => [[c]]) [[]]).map String.mk

/-- Escaping of one character inside a JSON string literal, as produced by
json.dumps with ensure_ascii=False (quote, backslash and the common control
characters; other characters are emitted verbatim). -/
def jsonEscapeChar (c : Char) : List Char :=
  if c = '\\' then ['\\', '\\']
  else if c = '"' then ['\\', '"']
  else if c = '\n' then ['\\', 'n']
  else if c = '\t' then ['\\', 't']
  else if c = '\x0d' then ['\\', 'r']
  else [c]

/-- json.dumps(senhas, ensure_ascii=False) for a list of strings:
a bracketed, comma-space separated sequence of quoted escaped strings. -/
def json_dumps (senhas : List String) : String :=
  "[" ++ String.intercalate ", "
    (senhas.map (fun s => "\"" ++ String.mk (s.data.map jsonEscapeChar).flatten ++ "\"")) ++ "]"

/-- JSON whitespace accepted between tokens by json.loads. -/
def isJsonWS (c : Char) : Bool :=
  c = ' ' || c = '\t' || c = '\n' || c = '\x0d'

def skipJsonWS (cs : List Char) : List Char := cs.dropWhile isJsonWS

/-- Parse the remainder of a JSON string literal (the opening quote already
consumed), handling the escapes produced by jsonEscapeChar. -/
def parseJString : List Char → List Char → Option (String × List Char)
  | _, [] => none
  | acc, '"' :: cs => some (String.mk acc.reverse, cs)
  | acc, '\\' :: e :: cs =>
      if e = '\\' then parseJString ('\\' :: acc) cs
      else if e = '"' then parseJString ('"' :: acc) cs
      else if e = 'n' then parseJString ('\n' :: acc) cs
      else if e = 't' then parseJString ('\t' :: acc) cs
      else if e = 'r' then parseJString ('\x0d' :: acc) cs
      else none
  | _, ['\\'] => none
  | acc, c :: cs => parseJString (c :: acc) cs

/-- Parse a non-empty comma-separated sequence of JSON string literals
followed by the closing bracket. Fuel bounds the recursion. -/
def parseItems : Nat → List Char → Option (List String × List Char)
  | 0, _ => none
  | fuel + 1, cs =>
    match skipJsonWS cs with
    | '"' :: rest =>
      match parseJString [] rest with
      | none => none
      | some (s, rest2) =>
        match skipJsonWS rest2 with
        | ',' :: rest3 =>
          match parseItems fuel rest3 with
          | some (ss, rest4) => some (s :: ss, rest4)
          | none => none
        | ']' :: rest3 => some ([s], rest3)
        | _ => none
    | _ => none

/-- json.loads specialised to the documents this system ever stores: a JSON
list of strings. Any other document - truncated, malformed, or of another
JSON type - yields none, which models the json.JSONDecodeError / TypeError /
ValueError branch that the bulk readers catch and skip. -/
def json_loads_strlist (s : String) : Option (List String) :=
  match skipJsonWS s.data with
  | '[' :: rest =>
    match skipJsonWS rest with
    | ']' :: rest2 => if (skipJsonWS rest2).isEmpty then some [] else none
    | _ =>
      match parseItems (rest.length + 1) rest with
      | some (ss, rest2) => if (skipJsonWS rest2).isEmpty then some ss else none
      | none => none
  | _ => none

/-- A row of the usuarios table. -/
structure UsuarioRow where
  id : Nat
  username : String
  password_hash : String
  nome_completo : String
  unidade : String
  tipo_usuario : String
  ativo : Bool
  data_criacao : Nat
  ultimo_login : Option Nat
deriving DecidableEq

/-- A row of the registros table; senhas holds the JSON-serialized list. -/
structure RegistroRow where
  id : Nat
  carteirinha : String
  unidade : String
  senhas : String
  usuario_id : Nat
  data_criacao : Nat
deriving DecidableEq

/-- The persistent store: the two tables plus their AUTOINCREMENT counters. -/
structure DB where
  usuarios : List UsuarioRow
  registros : List RegistroRow
  next_usuario_id : Nat
  next_registro_id : Nat
deriving DecidableEq

/-- The dictionary built for one registro row by the readers in
database.py, with the senhas JSON decoded back into a list. -/
structure Registro where
  id : Nat
  carteirinha : String
  unidade : String
  senhas : List String
  usuario_id : Nat
  data_criacao : Nat
  total_senhas : Nat
deriving DecidableEq

/-- The identity carried by the session (class User in app.py). -/
structure User where
  id : Nat
  username : String
  nome_completo : String
  unidade : String
  tipo_usuario : String
deriving DecidableEq

def User.is_admin (u : User) : Bool := u.tipo_usuario == "admin"

/-- External werkzeug password hashing, abstracted as an injective tagged
encoding so that verification succeeds exactly on the hashed password. -/
def generate_password_hash (password : String) : String := "pbkdf2:" ++ password

def check_password_hash (hash password : String) : Bool :=
  hash == generate_password_hash password

/-- The per-row body of the reader loops in obter_todos_registros and
obter_registros_por_unidade: decode the senhas JSON and build the dict;
a decode failure means the row is skipped (none). -/
def rowToDict (row : RegistroRow) : Option Registro :=
  match json_loads_strlist row.senhas with
  | some senhas =>
      some ⟨row.id, row.carteirinha, row.unidade, senhas, row.usuario_id,
            row.data_criacao, senhas.length⟩
  | none => none

/-- Insertion step of the ORDER BY data_criacao DESC sort. -/
def insertByDataDesc (r : RegistroRow) : List RegistroRow → List RegistroRow
  | [] => [r]
  | x :: xs =>
      if x.data_criacao ≤ r.data_criacao then r :: x :: xs
      else x :: insertByDataDesc r xs

/-- ORDER BY data_criacao DESC, as an insertion sort. -/
def sortByDataDesc : List RegistroRow → List RegistroRow
  | [] => []
  | x :: xs => insertByDataDesc x (sortByDataDesc xs)

/-- DatabaseManager.obter_todos_registros: SELECT every registro ordered by
creation time descending, decoding senhas and skipping undecodable rows. -/
def obter_todos_registros (db : DB) : List Registro :=
  (sortByDataDesc db.registros).filterMap rowToDict

/-- DatabaseManager.obter_registros_por_unidade: as above but restricted by
WHERE unidade = ?. -/
def obter_registros_por_unidade (db : DB) (unidade : String) : List Registro :=
  (sortByDataDesc (db.registros.filter (fun r => r.unidade == unidade))).filterMap rowToDict

/-- DatabaseManager.inserir_registro: validate presence of every field and
the 5-password cap, then append the row with the senhas list serialized. -/
def inserir_registro (db : DB) (carteirinha unidade : String)
    (senhas : List String) (usuario_id : Nat) (now : Nat) : Bool × DB :=
  if carteirinha = "" ∨ unidade = "" ∨ senhas = [] ∨ usuario_id = 0 then (false, db)
  else if senhas.length > 5 then (false, db)
  else
    (true,
     { db with
        registros := db.registros ++
          [⟨db.next_registro_id, carteirinha, unidade, json_dumps senhas, usuario_id, now⟩],
        next_registro_id := db.next_registro_id + 1 })

/-- A value in a fetched SQL row (this system only meets TEXT and INTEGER). -/
inductive SqlValue
  | s (v : String)
  | i (v : Nat)
deriving DecidableEq

/-- Lexicographic comparison on code points, for ORDER BY over TEXT. -/
def strLeChars : List Char → List Char → Bool
  | [], _ => true
  | _ :: _, [] => false
  | a :: as, b :: bs => if a = b then strLeChars as bs else decide (a.toNat ≤ b.toNat)

def insertByUnidadeAsc (u : String) : List String → List String
  | [] => [u]
  | x :: xs => if strLeChars u.data x.data then u :: x :: xs else x :: insertByUnidadeAsc u xs

def sortUnidades : List String → List String
  | [] => []
  | x :: xs => insertByUnidadeAsc x (sortUnidades xs)

/-- SELECT unidade, COUNT(*) FROM registros GROUP BY unidade ORDER BY
unidade: one two-column row per distinct unidade value. -/
def groupRows (regs : List RegistroRow) : List (List SqlValue) :=
  (sortUnidades ((regs.map (fun r => r.unidade)).eraseDups)).map
    (fun u => [SqlValue.s u, SqlValue.i (regs.countP (fun r => r.unidade == u))])

/-- The loop of contar_registros_por_unidade: contagem[row[2]] = row[1].
Indexing a two-column row at 2 is out of range, which raises (none); the
value taken is row[1]. -/
def buildContagem : List (List SqlValue) → Option (List (SqlValue × SqlValue))
  | [] => some []
  | row :: rest =>
    match row.get? 2, row.get? 1 with
    | some k, some v =>
      match buildContagem rest with
      | some m => some ((k, v) :: m)
      | none => none
    | _, _ => none

/-- DatabaseManager.contar_registros_por_unidade: run the grouping query,
build the dict in a loop, and on any exception return the empty dict. -/
def contar_registros_por_unidade (db : DB) : List (SqlValue × SqlValue) :=
  match buildContagem (groupRows db.registros) with
  | some m => m
  | none => []

/-- DatabaseManager.criar_usuario: check-then-insert on the username, hash
the password, append the new active user row. Any raise inside (including
the UNIQUE constraint) is caught and reported as false. -/
def criar_usuario (db : DB) (username password nome_completo unidade tipo_usuario : String)
    (now : Nat) : Bool × DB :=
  if 0 < db.usuarios.countP (fun u => u.username == username) then (false, db)
  else
    (true,
     { db with
        usuarios := db.usuarios ++
          [⟨db.next_usuario_id, username, generate_password_hash password,
            nome_completo, unidade, tipo_usuario, true, now, none⟩],
        next_usuario_id := db.next_usuario_id + 1 })

/-- DatabaseManager.validar_login: fetch the first active row with the given
username, verify the hash, then run the last-login UPDATE inside the same
try block. update_ok models whether that UPDATE raises: when it raises, the
handler's except branch returns None, so the whole login fails. -/
def validar_login (db : DB) (username password : String) (now : Nat)
    (update_ok : Bool) : Option User × DB :=
  match (db.usuarios.filter (fun u => u.username == username && u.ativo)).head? with
  | none => (none, db)
  | some u =>
    if check_password_hash u.password_hash password then
      if update_ok then
        (some ⟨u.id, u.username, u.nome_completo, u.unidade, u.tipo_usuario⟩,
         { db with usuarios :=
            db.usuarios.map (fun v =>
              if v.id = u.id then { v with ultimo_login := some now } else v) })
      else (none, db)
    else (none, db)

/-- The password normalization in the adicionar_registro route: split the raw
form string on commas, strip each entry, drop empties (empty raw gives []). -/
def processar_senhas (senhas_raw : String) : List String :=
  if senhas_raw = "" then []
  else ((pySplitComma senhas_raw).map pyStrip).filter (fun s => s != "")

/-- Outcome of the adicionar_registro route. -/
inductive AdicionarResult
  | flash_error (msg : String)
  | db_error
  | ok (senhas : List String)
deriving DecidableEq

/-- Route adicionar_registro in app.py: field presence checks, the unit
restriction for non-admin non-Ambas operators, password-count bounds, then
inserir_registro. -/
def adicionar_registro (current_user : User)
    (form_carteirinha form_unidade senhas_raw : String)
    (db : DB) (now : Nat) : AdicionarResult × DB :=
  let carteirinha := pyStrip form_carteirinha
  let unidade := pyStrip form_unidade
  if carteirinha = "" then (.flash_error "Carteirinha é obrigatória!", db)
  else if unidade = "" then (.flash_error "Unidade é obrigatória!", db)
  else if ¬current_user.is_admin ∧ current_user.unidade ≠ unidade ∧ current_user.unidade ≠ "Ambas" then
    (.flash_error "Você só pode criar registros para a sua unidade!", db)
  else
    let senhas := processar_senhas senhas_raw
    if senhas.length > 5 then (.flash_error "Máximo de 5 senhas permitidas!", db)
    else if senhas.length = 0 then (.flash_error "Pelo menos uma senha deve ser informada!", db)
    else
      match inserir_registro db carteirinha unidade senhas current_user.id now with
      | (true, db2) => (.ok senhas, db2)
      | (false, db2) => (.db_error, db2)

/-- Route visualizar_registros in app.py: the requested unit filter is
overridden by the operator's own unit for non-admin non-Ambas users; only
the two known concrete units select the filtered query. -/
def visualizar_registros (current_user : User) (unidade_arg : String) (db : DB) : List Registro :=
  let unidade_filtro :=
    if ¬current_user.is_admin ∧ current_user.unidade ≠ "Ambas" then current_user.unidade
    else unidade_arg
  if unidade_filtro ≠ "" ∧ (unidade_filtro = "Belo Horizonte" ∨ unidade_filtro = "Contagem") then
    obter_registros_por_unidade db unidade_filtro
  else
    obter_todos_registros db

/-- One CSV data row written by the exportar_dados route. -/
def csv_row (r : Registro) : List String :=
  [toString r.id, r.carteirinha, r.unidade, String.intercalate "; " r.senhas,
   toString r.data_criacao, toString r.usuario_id]

/-- Route exportar_dados in app.py: admins export every record, every other
user exports the records whose unit equals their own unit string; a header
row precedes the data rows. -/
def exportar_dados (current_user : User) (db : DB) : List (List String) :=
  let registros :=
    if current_user.is_admin then obter_todos_registros db
    else obter_registros_por_unidade db current_user.unidade
  ["ID", "Carteirinha", "Unidade", "Senhas", "Data/Hora Criação", "Usuário ID"]
    :: registros.map csv_row

/-- Outcome of the criar_usuario route. -/
inductive CriarUsuarioResult
  | denied
  | flash_error (msg : String)
  | created
  | failed
deriving DecidableEq

/-- Route criar_usuario in app.py (POST): admin-only, all four text fields
required after stripping, password at least 4 characters, then the database
criar_usuario; the unit string is never checked against the known units. -/
def criar_usuario_route (current_user : User)
    (form_username form_password form_nome form_unidade form_tipo : String)
    (db : DB) (now : Nat) : CriarUsuarioResult × DB :=
  if ¬current_user.is_admin then (.denied, db)
  else
    let username := pyStrip form_username
    let password := pyStrip form_password
    let nome_completo := pyStrip form_nome
    let unidade := pyStrip form_unidade
    if username = "" ∨ password = "" ∨ nome_completo = "" ∨ unidade = "" then
      (.flash_error "Todos os campos são obrigatórios!", db)
    else if password.length < 4 then
      (.flash_error "Senha deve ter pelo menos 4 caracteres!", db)
    else
      match criar_usuario db username password nome_completo unidade form_tipo now with
      | (true, db2) => (.created, db2)
      | (false, db2) => (.failed, db2)

/-! Helper lemmas about the embedded sort and the row decoder. -/

theorem insertByDataDesc_perm (r : RegistroRow) (l : List RegistroRow) :
    List.Perm (insertByDataDesc r l) (r :: l) := by
  induction l with
  | nil => simp [insertByDataDesc]
  | cons x xs ih =>
    by_cases h : x.data_criacao ≤ r.data_criacao
    · simp [insertByDataDesc, h]
    · simp only [insertByDataDesc, if_neg h]
      exact (ih.cons x).trans (List.Perm.swap r x xs)

theorem sortByDataDesc_perm (l : List RegistroRow) :
    List.Perm (sortByDataDesc l) l := by
  induction l with
  | nil => simp [sortByDataDesc]
  | cons x xs ih =>
    exact (insertByDataDesc_perm x (sortByDataDesc xs)).trans (ih.cons x)

theorem mem_sortByDataDesc {x : RegistroRow} {l : List RegistroRow} :
    x ∈ sortByDataDesc l ↔ x ∈ l :=
  (sortByDataDesc_perm l).mem_iff

theorem rowToDict_unidade {row : RegistroRow} {r : Registro}
    (h : rowToDict row = some r) : r.unidade = row.unidade := by
  unfold rowToDict at h
  split at h
  · cases h; rfl
  · cases h

theorem rowToDict_isSome (row : RegistroRow) :
    (rowToDict row).isSome = (json_loads_strlist row.senhas).isSome := by
  unfold rowToDict
  cases hj : json_loads_strlist row.senhas <;> simp [hj]

theorem length_filterMap_eq_countP {α β : Type} (f : α → Option β) (l : List α) :
    (l.filterMap f).length = l.countP (fun a => (f a).isSome) := by
  induction l with
  | nil => rfl
  | cons a l ih =>
    cases hf : f a <;> simp [List.filterMap_cons, hf, List.countP_cons, ih]

/-! Concrete fixtures used by counterexamples and witnesses. -/

def adminUser : User := ⟨1, "admin", "Administrador do Sistema", "Ambas", "admin"⟩

def opBH : User := ⟨2, "op1", "Operador BH", "Belo Horizonte", "operador"⟩

def opAmbas : User := ⟨3, "op3", "Operador Ambas", "Ambas", "operador"⟩

def opBetim : User := ⟨4, "op4", "Operador Betim", "Betim", "operador"⟩

def regBH : RegistroRow := ⟨1, "C100", "Belo Horizonte", "[\"111\"]", 2, 5⟩

def regCont : RegistroRow := ⟨2, "C200", "Contagem", "[\"222\"]", 2, 6⟩

def regBad : RegistroRow := ⟨3, "C300", "Belo Horizonte", "corrupted", 2, 7⟩

def dbEmpty : DB := ⟨[], [], 1, 1⟩

def dbBoth : DB := ⟨[], [regBH, regCont], 1, 3⟩

def dbC7 : DB := ⟨[], [regBH, regCont, regBad], 1, 4⟩

def usuJoao : UsuarioRow :=
  ⟨1, "joao", generate_password_hash "1234", "João", "Belo Horizonte", "operador", true, 0, none⟩

def dbJoao : DB := ⟨[usuJoao], [], 2, 1⟩

def usuInactive : UsuarioRow :=
  ⟨1, "maria", generate_password_hash "abcd", "Maria", "Contagem", "operador", false, 0, none⟩

def dbInactive : DB := ⟨[usuInactive], [], 2, 1⟩

/-- C1: for a non-admin identity assigned to a concrete unit, the records
view ignores the requested unit filter entirely: whatever unit is requested
(including the other concrete unit), the result is the own-unit query, every
returned record carries the identity's unit, and the result is exactly (up
to the embedded ordering) the decodable stored records of that unit; the
handler is total, so no request produces an error. -/
theorem c1_nonadmin_filter_forced_to_own_unit
    (u : User) (req : String) (db : DB)
    (hadm : u.is_admin = false)
    (hu : u.unidade = "Belo Horizonte" ∨ u.unidade = "Contagem") :
    visualizar_registros u req db = obter_registros_por_unidade db u.unidade
    ∧ (∀ r ∈ visualizar_registros u req db, r.unidade = u.unidade)
    ∧ List.Perm (visualizar_registros u req db)
        ((db.registros.filter (fun row => row.unidade == u.unidade)).filterMap rowToDict) := by
  have hAmb : u.unidade ≠ "Ambas" := by
    rcases hu with h | h <;> rw [h] <;> decide
  have hne : u.unidade ≠ "" := by
    rcases hu with h | h <;> rw [h] <;> decide
  have h1 : visualizar_registros u req db = obter_registros_por_unidade db u.unidade := by
    rcases hu with h | h <;> simp [visualizar_registros, hadm, h]
  refine ⟨h1, ?_, ?_⟩
  · intro r hr
    rw [h1] at hr
    unfold obter_registros_por_unidade at hr
    obtain ⟨row, hrow, hsome⟩ := List.mem_filterMap.mp hr
    have hmem := mem_sortByDataDesc.mp hrow
    have hunit := (List.mem_filter.mp hmem).2
    rw [rowToDict_unidade hsome]
    exact beq_iff_eq.mp hunit
  · rw [h1]
    unfold obter_registros_por_unidade
    exact List.Perm.filterMap rowToDict (sortByDataDesc_perm _)

theorem c1_witness :
    (opBH.is_admin = false ∧ (opBH.unidade = "Belo Horizonte" ∨ opBH.unidade = "Contagem"))
    ∧ (visualizar_registros opBH "Contagem" dbBoth = obter_registros_por_unidade dbBoth opBH.unidade
       ∧ (∀ r ∈ visualizar_registros opBH "Contagem" dbBoth, r.unidade = opBH.unidade)
       ∧ List.Perm (visualizar_registros opBH "Contagem" dbBoth)
           ((dbBoth.registros.filter (fun row => row.unidade == opBH.unidade)).filterMap rowToDict)) :=
  ⟨⟨by decide, Or.inl (by decide)⟩,
   c1_nonadmin_filter_forced_to_own_unit opBH "Contagem" dbBoth (by decide) (Or.inl (by decide))⟩

/-- C3: the claim fails on the code. An operator whose unit is "Ambas"
exports via obter_registros_por_unidade "Ambas", so the CSV holds only the
header even though the store holds records of both concrete units and the
records view (the identity's permitted scope) returns both of them. -/
theorem c3_ambas_operator_export_loses_permitted_scope :
    exportar_dados opAmbas dbBoth =
      [["ID", "Carteirinha", "Unidade", "Senhas", "Data/Hora Criação", "Usuário ID"]]
    ∧ visualizar_registros opAmbas "" dbBoth =
        [⟨2, "C200", "Contagem", ["222"], 2, 6, 1⟩,
         ⟨1, "C100", "Belo Horizonte", ["111"], 2, 5, 1⟩]
    ∧ obter_registros_por_unidade dbBoth "Ambas" = [] := by decide

/-- C4: the claim fails on the code. The loop of
contar_registros_por_unidade indexes each two-column (unidade, total) row at
position 2, which is out of range; the raised error is caught and the empty
mapping returned, here for a store that holds one "Belo Horizonte" record. -/
theorem c4_contar_registros_returns_empty_mapping :
    contar_registros_por_unidade dbBoth = []
    ∧ dbBoth.registros.countP (fun r => r.unidade == "Belo Horizonte") = 1 := by decide

/-- Supporting fact: the row[2] slip makes contar_registros_por_unidade
return the empty mapping on every store whatsoever. -/
theorem contar_registros_por_unidade_sempre_vazio (db : DB) :
    contar_registros_por_unidade db = [] := by
  unfold contar_registros_por_unidade groupRows
  cases h : sortUnidades ((db.registros.map (fun r => r.unidade)).eraseDups) <;> rfl

/-- The half of the record invariant that concerns the password list: the
stored senhas column is the serialization of a list of 1 to 5 entries. -/
def senhas_len_invariant (row : RegistroRow) : Prop :=
  ∃ l : List String, row.senhas = json_dumps l ∧ 1 ≤ l.length ∧ l.length ≤ 5

/-- C5: the claim as stated fails on the code. An admin submitting the unit
string "Ambas" creates a record successfully, and the stored record's unit
is "Ambas", which is not one of the two concrete units. -/
theorem c5_admin_can_store_non_concrete_unit :
    (adicionar_registro adminUser "C100" "Ambas" "s1" dbEmpty 10).1 = .ok ["s1"]
    ∧ (adicionar_registro adminUser "C100" "Ambas" "s1" dbEmpty 10).2.registros.map
        (fun r => r.unidade) = ["Ambas"]
    ∧ ¬("Ambas" = "Belo Horizonte" ∨ "Ambas" = "Contagem") := by decide

/-- C5 amended: every create operation (the database insert and the route,
for all inputs and all acting identities) preserves the password-count half
of the invariant - every stored senhas column serializes a list of 1 to 5
entries. The unit half is not enforced by the code: the unit string is
stored as submitted whenever the identity is an admin or an "Ambas"
operator. -/
theorem c5_amended_password_bound_preserved (db : DB)
    (hdb : ∀ row ∈ db.registros, senhas_len_invariant row) :
    (∀ (carteirinha unidade : String) (senhas : List String) (uid now : Nat),
       ∀ row ∈ (inserir_registro db carteirinha unidade senhas uid now).2.registros,
         senhas_len_invariant row)
    ∧ (∀ (u : User) (fc fu raw : String) (now : Nat),
       ∀ row ∈ (adicionar_registro u fc fu raw db now).2.registros,
         senhas_len_invariant row) := by
  have hins : ∀ (carteirinha unidade : String) (senhas : List String) (uid now : Nat),
      ∀ row ∈ (inserir_registro db carteirinha unidade senhas uid now).2.registros,
        senhas_len_invariant row := by
    intro c un s uid now row hrow
    unfold inserir_registro at hrow
    by_cases h1 : c = "" ∨ un = "" ∨ s = [] ∨ uid = 0
    · rw [if_pos h1] at hrow
      exact hdb row hrow
    · rw [if_neg h1] at hrow
      by_cases h2 : s.length > 5
      · rw [if_pos h2] at hrow
        exact hdb row hrow
      · rw [if_neg h2] at hrow
        push_neg at h1
        rcases List.mem_append.mp hrow with h | h
        · exact hdb row h
        · rw [List.mem_singleton.mp h]
          exact ⟨s, rfl, List.length_pos.mpr h1.2.2.1, by omega⟩
  refine ⟨hins, ?_⟩
  intro u fc fu raw now row hrow
  unfold adicionar_registro at hrow
  by_cases h1 : pyStrip fc = ""
  · rw [if_pos h1] at hrow
    exact hdb row hrow
  · rw [if_neg h1] at hrow
    by_cases h2 : pyStrip fu = ""
    · rw [if_pos h2] at hrow
      exact hdb row hrow
    · rw [if_neg h2] at hrow
      by_cases h3 : ¬u.is_admin ∧ u.unidade ≠ pyStrip fu ∧ u.unidade ≠ "Ambas"
      · rw [if_pos h3] at hrow
        exact hdb row hrow
      · rw [if_neg h3] at hrow
        by_cases h4 : (processar_senhas raw).length > 5
        · rw [if_pos h4] at hrow
          exact hdb row hrow
        · rw [if_neg h4] at hrow
          by_cases h5 : (processar_senhas raw).length = 0
          · rw [if_pos h5] at hrow
            exact hdb row hrow
          · rw [if_neg h5] at hrow
            rcases hres : inserir_registro db (pyStrip fc) (pyStrip fu)
                (processar_senhas raw) u.id now with ⟨b, db2⟩
            rw [hres] at hrow
            have hmem : row ∈ (inserir_registro db (pyStrip fc) (pyStrip fu)
                (processar_senhas raw) u.id now).2.registros := by
              rw [hres]
              cases b <;> exact hrow
            exact hins _ _ _ _ _ row hmem

theorem c5_witness :
    (∀ (carteirinha unidade : String) (senhas : List String) (uid now : Nat),
       ∀ row ∈ (inserir_registro dbEmpty carteirinha unidade senhas uid now).2.registros,
         senhas_len_invariant row)
    ∧ (∀ (u : User) (fc fu raw : String) (now : Nat),
       ∀ row ∈ (adicionar_registro u fc fu raw dbEmpty now).2.registros,
         senhas_len_invariant row) :=
  c5_amended_password_bound_preserved dbEmpty (by simp [dbEmpty])

/-- C6: the claim as stated fails on the code. For an active account with
the correct password, a failing last-login UPDATE raises inside the same
try block, the except branch runs, and validar_login returns None. -/
theorem c6_update_failure_fails_validated_login :
    usuJoao.ativo = true
    ∧ check_password_hash usuJoao.password_hash "1234" = true
    ∧ (validar_login dbJoao "joao" "1234" 7 false).1 = none := by decide

/-- C6 amended: when the last-login UPDATE fails, validar_login returns no
identity for every store and every credential pair - the update failure
turns even an already-validated login into a failure. -/
theorem c6_amended_update_failure_always_fails
    (db : DB) (username password : String) (now : Nat) :
    (validar_login db username password now false).1 = none := by
  unfold validar_login
  cases h : (db.usuarios.filter (fun u => u.username == username && u.ativo)).head? with
  | none => rfl
  | some u =>
    by_cases hc : check_password_hash u.password_hash password <;> simp [hc]

/-- C7: when exactly one of N stored rows has an undecodable senhas column,
the bulk listing returns N-1 records and an admin CSV export has N lines
(the header plus N-1 data rows): the bad row is skipped, nothing fails. -/
theorem c7_undecodable_row_skipped (db : DB) (u : User) (N : Nat)
    (hN : db.registros.length = N)
    (hbad : (db.registros.filter (fun r => (json_loads_strlist r.senhas).isNone)).length = 1)
    (hadm : u.is_admin = true) :
    (obter_todos_registros db).length = N - 1
    ∧ (exportar_dados u db).length = N := by
  have hcount : db.registros.countP (fun r => (json_loads_strlist r.senhas).isNone) = 1 := by
    rw [← hbad]
    exact (List.countP_eq_length_filter _ _)
  have hsplit := List.length_eq_countP_add_countP
      (fun r => (json_loads_strlist r.senhas).isNone) db.registros
  have hgood : db.registros.countP (fun r => (rowToDict r).isSome) = N - 1 := by
    have he : db.registros.countP (fun r => (rowToDict r).isSome)
        = db.registros.countP (fun r => decide ¬(json_loads_strlist r.senhas).isNone = true) := by
      apply List.countP_congr
      intro r _
      rw [rowToDict_isSome r]
      cases json_loads_strlist r.senhas <;> simp
    rw [he]
    omega
  have hlen : (obter_todos_registros db).length = N - 1 := by
    unfold obter_todos_registros
    rw [length_filterMap_eq_countP, (sortByDataDesc_perm db.registros).countP_eq]
    exact hgood
  have hpos : 1 ≤ N := by
    have := List.length_filter_le
        (fun r => (json_loads_strlist r.senhas).isNone) db.registros
    omega
  refine ⟨hlen, ?_⟩
  unfold exportar_dados
  simp only [hadm, if_pos]
  simp [hlen]
  omega

theorem c7_witness :
    (dbC7.registros.length = 3
     ∧ (dbC7.registros.filter (fun r => (json_loads_strlist r.senhas).isNone)).length = 1
     ∧ adminUser.is_admin = true)
    ∧ ((obter_todos_registros dbC7).length = 3 - 1
       ∧ (exportar_dados adminUser dbC7).length = 3) :=
  ⟨⟨by decide, by decide, by decide⟩,
   c7_undecodable_row_skipped dbC7 adminUser 3 (by decide) (by decide) (by decide)⟩

/-- C2: the submitted raw password string is split on commas, each entry is
stripped, empty entries are dropped; the result is an in-order sublist of
the stripped entries (so order and duplicates are preserved); a result of 0
entries or of more than 5 entries is rejected with the corresponding
validation message and the store is unchanged, while 1 to 5 entries are
accepted and stored; "a, ,b" normalizes to exactly ["a", "b"]. -/
theorem c2_password_normalization
    (raw : String) (u : User) (fc fu : String) (db : DB) (now : Nat)
    (hc : pyStrip fc ≠ "") (hun : pyStrip fu ≠ "")
    (hauth : u.is_admin = true ∨ u.unidade = pyStrip fu ∨ u.unidade = "Ambas")
    (hid : u.id ≠ 0) :
    processar_senhas raw = ((pySplitComma raw).map pyStrip).filter (fun s => s != "")
    ∧ List.Sublist (processar_senhas raw) ((pySplitComma raw).map pyStrip)
    ∧ (processar_senhas raw = [] →
        adicionar_registro u fc fu raw db now
          = (.flash_error "Pelo menos uma senha deve ser informada!", db))
    ∧ ((processar_senhas raw).length > 5 →
        adicionar_registro u fc fu raw db now
          = (.flash_error "Máximo de 5 senhas permitidas!", db))
    ∧ (1 ≤ (processar_senhas raw).length → (processar_senhas raw).length ≤ 5 →
        adicionar_registro u fc fu raw db now
          = (.ok (processar_senhas raw),
             { db with
                registros := db.registros ++
                  [⟨db.next_registro_id, pyStrip fc, pyStrip fu,
                    json_dumps (processar_senhas raw), u.id, now⟩],
                next_registro_id := db.next_registro_id + 1 }))
    ∧ processar_senhas "a, ,b" = ["a", "b"] := by
  have hauth' : ¬(¬u.is_admin ∧ u.unidade ≠ pyStrip fu ∧ u.unidade ≠ "Ambas") := by
    rintro ⟨a1, a2, a3⟩
    rcases hauth with h | h | h
    · exact a1 h
    · exact a2 h
    · exact a3 h
  have hsplit : processar_senhas raw
      = ((pySplitComma raw).map pyStrip).filter (fun s => s != "") := by
    by_cases h : raw = ""
    · subst h; decide
    · simp [processar_senhas, h]
  refine ⟨hsplit, ?_, ?_, ?_, ?_, by decide⟩
  · rw [hsplit]
    exact List.filter_sublist _
  · intro h0
    simp only [adicionar_registro]
    rw [if_neg hc, if_neg hun, if_neg hauth', h0]
    rfl
  · intro h5
    simp only [adicionar_registro]
    rw [if_neg hc, if_neg hun, if_neg hauth', if_pos h5]
  · intro hge hle
    have hgt : ¬(processar_senhas raw).length > 5 := by omega
    have hz : ¬(processar_senhas raw).length = 0 := by omega
    have hnil : processar_senhas raw ≠ [] := by
      intro he
      rw [he] at hge
      simp at hge
    simp only [adicionar_registro]
    rw [if_neg hc, if_neg hun, if_neg hauth', if_neg hgt, if_neg hz]
    have hins : inserir_registro db (pyStrip fc) (pyStrip fu)
        (processar_senhas raw) u.id now
        = (true,
           { db with
              registros := db.registros ++
                [⟨db.next_registro_id, pyStrip fc, pyStrip fu,
                  json_dumps (processar_senhas raw), u.id, now⟩],
              next_registro_id := db.next_registro_id + 1 }) := by
      unfold inserir_registro
      rw [if_neg, if_neg hgt]
      rintro (h | h | h | h)
      · exact hc h
      · exact hun h
      · exact hnil h
      · exact hid h
    rw [hins]

theorem c2_witness :
    (pyStrip "C1" ≠ "" ∧ opBH.unidade = pyStrip "Belo Horizonte" ∧ opBH.id ≠ 0)
    ∧ (processar_senhas "a, ,b"
        = ((pySplitComma "a, ,b").map pyStrip).filter (fun s => s != "")
      ∧ List.Sublist (processar_senhas "a, ,b") ((pySplitComma "a, ,b").map pyStrip)
      ∧ (processar_senhas "a, ,b" = [] →
          adicionar_registro opBH "C1" "Belo Horizonte" "a, ,b" dbEmpty 1
            = (.flash_error "Pelo menos uma senha deve ser informada!", dbEmpty))
      ∧ ((processar_senhas "a, ,b").length > 5 →
          adicionar_registro opBH "C1" "Belo Horizonte" "a, ,b" dbEmpty 1
            = (.flash_error "Máximo de 5 senhas permitidas!", dbEmpty))
      ∧ (1 ≤ (processar_senhas "a, ,b").length → (processar_senhas "a, ,b").length ≤ 5 →
          adicionar_registro opBH "C1" "Belo Horizonte" "a, ,b" dbEmpty 1
            = (.ok (processar_senhas "a, ,b"),
               { dbEmpty with
                  registros := dbEmpty.registros ++
                    [⟨dbEmpty.next_registro_id, pyStrip "C1", pyStrip "Belo Horizonte",
                      json_dumps (processar_senhas "a, ,b"), opBH.id, 1⟩],
                  next_registro_id := dbEmpty.next_registro_id + 1 }))
      ∧ processar_senhas "a, ,b" = ["a", "b"]) :=
  ⟨⟨by decide, by decide, by decide⟩,
   c2_password_normalization "a, ,b" opBH "C1" "Belo Horizonte" dbEmpty 1
     (by decide) (by decide) (Or.inr (Or.inl (by decide))) (by decide)⟩

/-- C8: when every stored row carrying the given username is deactivated
(ativo = 0), validar_login returns no identity, for every password - the
query restricts to active users, so a matching hash cannot help. -/
theorem c8_inactive_account_never_logs_in (db : DB) (username password : String)
    (now : Nat) (update_ok : Bool)
    (h : ∀ u ∈ db.usuarios, u.username = username → u.ativo = false) :
    (validar_login db username password now update_ok).1 = none := by
  have hfil : db.usuarios.filter (fun u => u.username == username && u.ativo) = [] := by
    rw [List.filter_eq_nil_iff]
    intro a ha hp
    simp only [Bool.and_eq_true, beq_iff_eq] at hp
    have := h a ha hp.1
    rw [this] at hp
    exact Bool.false_ne_true hp.2
  unfold validar_login
  rw [hfil]
  rfl

theorem c8_witness :
    ((∀ u ∈ dbInactive.usuarios, u.username = "maria" → u.ativo = false)
     ∧ check_password_hash usuInactive.password_hash "abcd" = true)
    ∧ (validar_login dbInactive "maria" "abcd" 3 true).1 = none :=
  ⟨⟨by decide, by decide⟩,
   c8_inactive_account_never_logs_in dbInactive "maria" "abcd" 3 true (by decide)⟩

/-- C9: creating a user whose username already exists in the store reports
failure (False, modelling the caught-exception/early-return paths) and
returns the store completely unchanged - no partial row is added. -/
theorem c9_duplicate_username_rejected (db : DB)
    (username password nome_completo unidade tipo_usuario : String) (now : Nat)
    (h : ∃ u ∈ db.usuarios, u.username = username) :
    criar_usuario db username password nome_completo unidade tipo_usuario now
      = (false, db) := by
  have hcond : 0 < db.usuarios.countP (fun u => u.username == username) := by
    obtain ⟨u, hu, he⟩ := h
    exact List.countP_pos_iff.mpr ⟨u, hu, by simp [he]⟩
  unfold criar_usuario
  rw [if_pos hcond]

theorem c9_witness :
    (∃ u ∈ dbJoao.usuarios, u.username = "joao")
    ∧ criar_usuario dbJoao "joao" "xyzw" "Outro Nome" "Contagem" "operador" 9
        = (false, dbJoao) :=
  ⟨⟨usuJoao, by decide, rfl⟩,
   c9_duplicate_username_rejected dbJoao "joao" "xyzw" "Outro Nome" "Contagem"
     "operador" 9 ⟨usuJoao, by decide, rfl⟩⟩

/-- C10: the admin create-user route accepts an arbitrary unit string (only
non-emptiness and password length are checked), and a non-admin identity
whose unit is none of "Belo Horizonte", "Contagem" or "Ambas" receives the
full unfiltered record list from the records view for every requested
filter - the unit scoping is silently bypassed for such identities. -/
theorem c10_unvalidated_unit_bypasses_scoping :
    (∀ (cu : User) (fu fp fn fund ftipo : String) (db : DB) (now : Nat),
       cu.is_admin = true →
       pyStrip fu ≠ "" → pyStrip fp ≠ "" → pyStrip fn ≠ "" → pyStrip fund ≠ "" →
       4 ≤ (pyStrip fp).length →
       db.usuarios.countP (fun u2 => u2.username == pyStrip fu) = 0 →
       criar_usuario_route cu fu fp fn fund ftipo db now
         = (.created,
            { db with
               usuarios := db.usuarios ++
                 [⟨db.next_usuario_id, pyStrip fu, generate_password_hash (pyStrip fp),
                   pyStrip fn, pyStrip fund, ftipo, true, now, none⟩],
               next_usuario_id := db.next_usuario_id + 1 }))
    ∧ (∀ (op : User) (req : String) (db : DB),
        op.is_admin = false → op.unidade ≠ "Belo Horizonte" →
        op.unidade ≠ "Contagem" → op.unidade ≠ "Ambas" →
        visualizar_registros op req db = obter_todos_registros db) := by
  constructor
  · intro cu fu fp fn fund ftipo db now hadm h1 h2 h3 h4 hlen hcount
    simp only [criar_usuario_route]
    rw [if_neg (fun hn => hn hadm)]
    have hfields : ¬(pyStrip fu = "" ∨ pyStrip fp = "" ∨ pyStrip fn = "" ∨ pyStrip fund = "") := by
      rintro (h | h | h | h)
      · exact h1 h
      · exact h2 h
      · exact h3 h
      · exact h4 h
    rw [if_neg hfields, if_neg (show ¬(pyStrip fp).length < 4 by omega)]
    have hcr : criar_usuario db (pyStrip fu) (pyStrip fp) (pyStrip fn) (pyStrip fund) ftipo now
        = (true,
           { db with
              usuarios := db.usuarios ++
                [⟨db.next_usuario_id, pyStrip fu, generate_password_hash (pyStrip fp),
                  pyStrip fn, pyStrip fund, ftipo, true, now, none⟩],
              next_usuario_id := db.next_usuario_id + 1 }) := by
      unfold criar_usuario
      rw [if_neg (show ¬0 < db.usuarios.countP (fun u2 => u2.username == pyStrip fu) by omega)]
    rw [hcr]
  · intro op req db h0 hBH hC hA
    have hin : (if ¬op.is_admin ∧ op.unidade ≠ "Ambas" then op.unidade else req)
        = op.unidade := if_pos ⟨by simp [h0], hA⟩
    simp only [visualizar_registros]
    rw [hin, if_neg (fun hcond => hcond.2.elim hBH hC)]

theorem c10_witness :
    criar_usuario_route adminUser "novo" "1234" "Nome Novo" "Betim" "operador" dbEmpty 3
      = (.created,
         { dbEmpty with
            usuarios := dbEmpty.usuarios ++
              [⟨dbEmpty.next_usuario_id, pyStrip "novo", generate_password_hash (pyStrip "1234"),
                pyStrip "Nome Novo", pyStrip "Betim", "operador", true, 3, none⟩],
            next_usuario_id := dbEmpty.next_usuario_id + 1 })
    ∧ visualizar_registros opBetim "Belo Horizonte" dbBoth = obter_todos_registros dbBoth :=
  ⟨c10_unvalidated_unit_bypasses_scoping.1 adminUser "novo" "1234" "Nome Novo" "Betim"
     "operador" dbEmpty 3 (by decide) (by decide) (by decide) (by decide) (by decide)
     (by decide) (by decide),
   c10_unvalidated_unit_bypasses_scoping.2 opBetim "Belo Horizonte" dbBoth
     (by decide) (by decide) (by decide) (by decide)⟩
